import Mathlib

/-!
Shallow embedding of the jGnash native launcher (src/rust-launcher/src/main.rs).

The program is pure control flow over three ambient effects, which we inject
through an environment record:
  * the result of `java_locator::locate_java_home()`,
  * the result of `std::env::current_exe()`,
  * whether the OS accepts the final `Command::spawn()` call.
Observable behaviour (the dialog shown by `msgbox::create`, the spawn attempt
with its program path and argument list, and any panic/abort) is recorded as a
trace of events.

`PathBuf` values coming from the OS are modelled structurally: an absoluteness
flag plus a list of components, where a component is `some s` for valid UTF-8
text and `none` for a non-UTF-8 component (so that `OsStr::to_str` can fail,
as it does in the source's `.to_str().unwrap()`).  `PathBuf::pop` removes the
last component; rendering back to a string joins components with the platform
separator.
-/

/-- The two `cfg(target_family)` variants the source compiles under. -/
inductive Platform
| windows
| unix
deriving DecidableEq, Repr

/-- Icon argument of `msgbox::create`; the launcher only ever uses `Error`. -/
inductive IconType
| Info
| Warning
| Error
deriving DecidableEq, Repr

/-- A `PathBuf` as handed out by the OS: an absoluteness flag and the list of
path components.  A component is `some s` when it is valid UTF-8 and `none`
when it is not (so conversion to `String` can fail). -/
structure OsPath where
  absolute : Bool
  components : List (Option String)
deriving DecidableEq, Repr

/-- `PathBuf::pop` (as used here, discarding the returned Bool): remove the
final path component if there is one. -/
def OsPath.pop (p : OsPath) : OsPath :=
  ⟨p.absolute, p.components.dropLast⟩

/-- `PathBuf::new()`: the empty path. -/
def OsPath.empty : OsPath :=
  ⟨false, []⟩

/-- Join path components with the separator `sep` (no leading separator). -/
def renderComps (sep : String) : List String → String
  | [] => ""
  | [c] => c
  | c :: cs => c ++ sep ++ renderComps sep (cs)

/-- `OsStr::to_str` on a component list: succeeds with the list of components
exactly when every component is valid UTF-8. -/
def toStrComps : List (Option String) → Option (List String)
  | [] => some []
  | none :: _ => none
  | some c :: rest => (toStrComps rest).map (fun cs => c :: cs)

/-- `path.as_os_str().to_str()`: render an `OsPath` to a `String` with
separator `sep`, failing if any component is not valid UTF-8. -/
def osPathToStr (sep : String) (p : OsPath) : Option String :=
  (toStrComps p.components).map
    (fun cs => (if p.absolute then sep else "") ++ renderComps sep cs)

/-- The path separator a platform's OS paths render with. -/
def sepOf : Platform → String
  | .windows => "\\"
  | .unix => "/"

/-- One `Command::spawn` invocation: the program path handed to
`Command::new` and the argument list accumulated by `.arg(..)` calls. -/
structure SpawnCall where
  program : String
  args : List String
deriving DecidableEq, Repr

/-- Observable events of one program run. -/
inductive Event
| dialogShown (title body : String) (icon : IconType)
| spawnAttempt (call : SpawnCall)
| aborted (msg : String)
deriving DecidableEq, Repr

/-- The ambient effects of one run, injected as data:
command-line arguments handed to the launcher (never read by the source),
the locator result, the `current_exe` result, and whether the OS accepts
the spawn call. -/
structure Env where
  args : List String
  javaHome : Except Unit String
  currentExe : Except Unit OsPath
  spawnSucceeds : Bool

/-- Panic message of `Option::unwrap` on `None`. -/
def unwrapNoneMsg : String := "called `Option::unwrap()` on a `None` value"

/-- Panic message of the `.expect(..)` guarding `spawn()`. -/
def spawnFailMsg : String := "command failed to start"

/-- Body text of the locator-failure dialog, exactly as in the source (the
Rust line-continuation backslash strips the newline and indentation). -/
def errorDialogBody : String :=
  "Unable to locate a valid Java installation.\n\nPlease download a JVM from https://adoptopenjdk.net."

/-- `get_execution_path`: current executable's path with its file name popped
off, or the empty path when the query fails. -/
def get_execution_path (currentExe : Except Unit OsPath) : OsPath :=
  match currentExe with
  | .ok path => path.pop
  | .error _ => OsPath.empty

/-- `launch_jgnash`, `cfg(target_family = "windows")` variant. -/
def launch_jgnash_windows (s : String) (env : Env) : List Event :=
  let java_exe := s ++ "\\bin\\javaw.exe"
  match osPathToStr (sepOf .windows) (get_execution_path env.currentExe) with
  | none => [Event.aborted unwrapNoneMsg]
  | some dir =>
    let class_path := dir ++ "\\lib\\*"
    let call : SpawnCall := ⟨java_exe, ["-classpath", class_path, "jGnash"]⟩
    if env.spawnSucceeds then
      [Event.spawnAttempt call]
    else
      [Event.spawnAttempt call, Event.aborted spawnFailMsg]

/-- `launch_jgnash`, `cfg(target_family = "unix")` variant.  Note the
backslash suffixes, copied verbatim from the Windows variant. -/
def launch_jgnash_unix (s : String) (env : Env) : List Event :=
  let java_exe := s ++ "\\bin\\javaw"
  match osPathToStr (sepOf .unix) (get_execution_path env.currentExe) with
  | none => [Event.aborted unwrapNoneMsg]
  | some dir =>
    let class_path := dir ++ "\\lib\\*"
    let call : SpawnCall := ⟨java_exe, ["-classpath", class_path, "jGnash"]⟩
    if env.spawnSucceeds then
      [Event.spawnAttempt call]
    else
      [Event.spawnAttempt call, Event.aborted spawnFailMsg]

/-- `main`: locate a Java home, then either launch or show the error dialog.
(Named `main'` because Lean reserves the top-level name `main` for `IO`.) -/
def main' (p : Platform) (env : Env) : List Event :=
  match env.javaHome with
  | .ok s =>
    match p with
    | .windows => launch_jgnash_windows s env
    | .unix => launch_jgnash_unix s env
  | .error _ => [Event.dialogShown "Error" errorDialogBody IconType.Error]

/-- The spawn calls attempted in a trace. -/
def spawnsOf (t : List Event) : List SpawnCall :=
  t.filterMap (fun e =>
    match e with
    | .spawnAttempt c => some c
    | _ => none)

/-- The dialogs shown in a trace, as (title, body, icon) triples. -/
def dialogsOf (t : List Event) : List (String × String × IconType) :=
  t.filterMap (fun e =>
    match e with
    | .dialogShown a b i => some (a, b, i)
    | _ => none)

/-- The platform-specific relative suffix appended to the Java home. -/
def javawSuffix : Platform → String
  | .windows => "\\bin\\javaw.exe"
  | .unix => "\\bin\\javaw"

/-- A concrete Unix current-executable path, `/opt/myapp/bin/launcher`. -/
def exePathUnix : OsPath :=
  ⟨true, [some "opt", some "myapp", some "bin", some "launcher"]⟩

/-- A fully successful Unix environment with locator result
`/usr/lib/jvm/default` and executable `/opt/myapp/bin/launcher`. -/
def envOkUnix : Env :=
  ⟨[], .ok "/usr/lib/jvm/default", .ok exePathUnix, true⟩

/-- Rendering a component list that ends in `c` appends `sep ++ c` to the
rendering of the rest, provided the rest is nonempty. -/
theorem renderComps_append_single (sep c : String) :
    ∀ cs : List String, cs ≠ [] →
      renderComps sep (cs ++ [c]) = renderComps sep cs ++ sep ++ c
  | [], h => absurd rfl h
  | [a], _ => rfl
  | a :: b :: cs, _ => by
    show a ++ sep ++ renderComps sep ((b :: cs) ++ [c]) =
      a ++ sep ++ renderComps sep (b :: cs) ++ sep ++ c
    rw [renderComps_append_single sep c (b :: cs) (by simp)]
    simp only [← String.append_assoc]

/-- A list of valid UTF-8 components converts successfully. -/
theorem toStrComps_map_some : ∀ cs : List String, toStrComps (cs.map some) = some cs
  | [] => rfl
  | c :: cs => by
    show (toStrComps (cs.map some)).map (fun l => c :: l) = some (c :: cs)
    rw [toStrComps_map_some cs]; rfl

/-- C1: if the Runtime Locator reports failure, the run is exactly one
dialog with title "Error", the fixed body naming the missing Java
installation and the download URL, and the error icon; no spawn is
attempted. -/
theorem locator_failure_dialog (p : Platform) (env : Env)
    (h : env.javaHome = .error ()) :
    main' p env = [Event.dialogShown "Error" errorDialogBody IconType.Error] ∧
    spawnsOf (main' p env) = [] := by
  unfold main'
  rw [h]
  exact ⟨rfl, rfl⟩

/-- Witness for C1 at a concrete failing environment. -/
theorem locator_failure_dialog_witness :
    main' .unix ⟨[], .error (), .error (), true⟩ =
      [Event.dialogShown "Error" errorDialogBody IconType.Error] ∧
    spawnsOf (main' .unix ⟨[], .error (), .error (), true⟩) = [] :=
  locator_failure_dialog .unix ⟨[], .error (), .error (), true⟩ rfl

/-- C2: every spawn attempted by `launch_jgnash` targets the locator result
concatenated verbatim with the platform suffix: `\bin\javaw.exe` in the
Windows variant, `\bin\javaw` in the Unix variant. -/
theorem constructed_exe_path (s : String) (env : Env) :
    (∀ c ∈ spawnsOf (launch_jgnash_windows s env),
      c.program = s ++ "\\bin\\javaw.exe") ∧
    (∀ c ∈ spawnsOf (launch_jgnash_unix s env),
      c.program = s ++ "\\bin\\javaw") := by
  constructor <;> intro c hc
  · simp only [launch_jgnash_windows] at hc
    split at hc
    · simp [spawnsOf] at hc
    · by_cases hs : env.spawnSucceeds <;>
        simp only [hs, if_true, if_false, Bool.false_eq_true, spawnsOf,
          List.filterMap, List.mem_singleton, List.mem_cons,
          List.not_mem_nil, or_false] at hc <;>
      simp [hc]
  · simp only [launch_jgnash_unix] at hc
    split at hc
    · simp [spawnsOf] at hc
    · by_cases hs : env.spawnSucceeds <;>
        simp only [hs, if_true, if_false, Bool.false_eq_true, spawnsOf,
          List.filterMap, List.mem_singleton, List.mem_cons,
          List.not_mem_nil, or_false] at hc <;>
      simp [hc]

/-- Witness for C2 at the concrete Unix environment: the spawned program is
the locator result "/j" plus the verbatim suffix. -/
theorem constructed_exe_path_witness :
    SpawnCall.program
        ⟨"/j\\bin\\javaw", ["-classpath", "/opt/myapp/bin\\lib\\*", "jGnash"]⟩ =
      "/j" ++ "\\bin\\javaw" :=
  (constructed_exe_path "/j" envOkUnix).2
    ⟨"/j\\bin\\javaw", ["-classpath", "/opt/myapp/bin\\lib\\*", "jGnash"]⟩
    (by decide)

/-- Characterization of the spawn calls of a whole run: none when the locator
fails or the install directory is not UTF-8, otherwise exactly the one call
built from the locator result and the rendered install directory. -/
theorem spawnsOf_main (p : Platform) (env : Env) :
    spawnsOf (main' p env) =
      match env.javaHome with
      | .error _ => []
      | .ok s =>
        match osPathToStr (sepOf p) (get_execution_path env.currentExe) with
        | none => []
        | some d =>
          [⟨s ++ javawSuffix p, ["-classpath", d ++ "\\lib\\*", "jGnash"]⟩] := by
  rcases env with ⟨a, jh, ce, sp⟩
  cases jh with
  | error e => cases p <;> rfl
  | ok s =>
    cases p with
    | windows =>
      dsimp only [main', launch_jgnash_windows]
      cases osPathToStr (sepOf .windows) (get_execution_path ce) with
      | none => rfl
      | some d => cases sp <;> rfl
    | unix =>
      dsimp only [main', launch_jgnash_unix]
      cases osPathToStr (sepOf .unix) (get_execution_path ce) with
      | none => rfl
      | some d => cases sp <;> rfl

/-- Characterization of the dialogs of a whole run: exactly the fixed error
dialog when the locator fails, none otherwise. -/
theorem dialogsOf_main (p : Platform) (env : Env) :
    dialogsOf (main' p env) =
      match env.javaHome with
      | .error _ => [("Error", errorDialogBody, IconType.Error)]
      | .ok _ => [] := by
  rcases env with ⟨a, jh, ce, sp⟩
  cases jh with
  | error e => cases p <;> rfl
  | ok s =>
    cases p with
    | windows =>
      dsimp only [main', launch_jgnash_windows]
      cases osPathToStr (sepOf .windows) (get_execution_path ce) with
      | none => rfl
      | some d => cases sp <;> rfl
    | unix =>
      dsimp only [main', launch_jgnash_unix]
      cases osPathToStr (sepOf .unix) (get_execution_path ce) with
      | none => rfl
      | some d => cases sp <;> rfl

/-- C3: every spawn call of every run passes exactly the three arguments
`-classpath`, the computed classpath, `jGnash`, in that order. -/
theorem spawn_args_exact (p : Platform) (env : Env) :
    ∀ c ∈ spawnsOf (main' p env),
      ∃ cp, c.args = ["-classpath", cp, "jGnash"] := by
  intro c hc
  rw [spawnsOf_main] at hc
  split at hc
  · simp at hc
  · split at hc
    · simp at hc
    · rw [List.mem_singleton] at hc
      subst hc
      exact ⟨_, rfl⟩

/-- Witness for C3 at the concrete Unix environment. -/
theorem spawn_args_exact_witness :
    ∃ cp,
      SpawnCall.args
          ⟨"/usr/lib/jvm/default\\bin\\javaw",
            ["-classpath", "/opt/myapp/bin\\lib\\*", "jGnash"]⟩ =
        ["-classpath", cp, "jGnash"] :=
  spawn_args_exact .unix envOkUnix
    ⟨"/usr/lib/jvm/default\\bin\\javaw",
      ["-classpath", "/opt/myapp/bin\\lib\\*", "jGnash"]⟩
    (by decide)

/-- C4 counterexample: with locator result "/usr/lib/jvm/default" and current
executable "/opt/myapp/bin/launcher", the run's spawn is NOT the one the
claim states (classpath "/opt/myapp\lib\*"): popping the executable name
leaves install directory "/opt/myapp/bin", not "/opt/myapp". -/
theorem end_to_end_unix_cex :
    spawnsOf (main' .unix envOkUnix) ≠
      [⟨"/usr/lib/jvm/default\\bin\\javaw",
        ["-classpath", "/opt/myapp\\lib\\*", "jGnash"]⟩] := by
  decide

/-- C4 amended: the spawn targets "/usr/lib/jvm/default\bin\javaw" with
classpath "/opt/myapp/bin\lib\*" (the install directory keeps the "bin"
segment, since only the file name is popped). -/
theorem end_to_end_unix :
    main' .unix envOkUnix =
      [Event.spawnAttempt
        ⟨"/usr/lib/jvm/default\\bin\\javaw",
          ["-classpath", "/opt/myapp/bin\\lib\\*", "jGnash"]⟩] := by
  decide

/-- C5: for a determinable executable path with components `cs ++ [c]`
(`cs` nonempty, all valid UTF-8), the derived install directory renders to
the executable path minus its final segment: the executable path string is
exactly the install directory string followed by the separator and `c`. -/
theorem install_dir_removes_last_segment (sep : String) (ab : Bool)
    (cs : List String) (c : String) (h : cs ≠ []) :
    osPathToStr sep (get_execution_path (.ok ⟨ab, cs.map some ++ [some c]⟩)) =
      some ((if ab then sep else "") ++ renderComps sep cs) ∧
    osPathToStr sep ⟨ab, cs.map some ++ [some c]⟩ =
      some ((if ab then sep else "") ++ renderComps sep cs ++ sep ++ c) := by
  have hmap : (cs.map some ++ [some c]) = (cs ++ [c]).map some := by
    simp
  constructor
  · show osPathToStr sep ⟨ab, (cs.map some ++ [some c]).dropLast⟩ = _
    rw [List.dropLast_concat]
    unfold osPathToStr
    rw [toStrComps_map_some]
    rfl
  · unfold osPathToStr
    rw [hmap, toStrComps_map_some]
    dsimp only [Option.map]
    rw [renderComps_append_single sep c cs h]
    simp only [← String.append_assoc]

/-- Witness for C5: "/opt/app/launcher" yields install directory "/opt/app"
(and the Windows-style example "C:\app\launcher.exe" yields "C:\app"). -/
theorem install_dir_removes_last_segment_witness :
    (osPathToStr "/"
        (get_execution_path (.ok ⟨true, [some "opt", some "app", some "launcher"]⟩)) =
      some "/opt/app") ∧
    (osPathToStr "\\"
        (get_execution_path
          (.ok ⟨false, [some "C:", some "app", some "launcher.exe"]⟩)) =
      some "C:\\app") := by
  constructor
  · exact ((install_dir_removes_last_segment "/" true ["opt", "app"] "launcher"
      (by decide)).1).trans (by decide)
  · exact ((install_dir_removes_last_segment "\\" false ["C:", "app"] "launcher.exe"
      (by decide)).1).trans (by decide)

/-- C6: every spawn call of every run carries, as its second argument, the
rendered install directory concatenated with the fixed suffix "\lib\*",
on both platform variants. -/
theorem classpath_from_install_dir (p : Platform) (env : Env) :
    ∀ c ∈ spawnsOf (main' p env),
      ∃ d, osPathToStr (sepOf p) (get_execution_path env.currentExe) = some d ∧
        c.args[1]? = some (d ++ "\\lib\\*") := by
  intro c hc
  rw [spawnsOf_main] at hc
  split at hc
  · simp at hc
  · split at hc
    · simp at hc
    · rename_i d hd
      rw [List.mem_singleton] at hc
      subst hc
      exact ⟨d, hd, rfl⟩

/-- Witness for C6 at the concrete Unix environment. -/
theorem classpath_from_install_dir_witness :
    ∃ d,
      osPathToStr (sepOf .unix) (get_execution_path envOkUnix.currentExe) =
        some d ∧
      (SpawnCall.args
          ⟨"/usr/lib/jvm/default\\bin\\javaw",
            ["-classpath", "/opt/myapp/bin\\lib\\*", "jGnash"]⟩)[1]? =
        some (d ++ "\\lib\\*") :=
  classpath_from_install_dir .unix envOkUnix
    ⟨"/usr/lib/jvm/default\\bin\\javaw",
      ["-classpath", "/opt/myapp/bin\\lib\\*", "jGnash"]⟩
    (by decide)

/-- C7: when `current_exe` reports an error, the install directory falls back
to the empty path and the run still constructs arguments and attempts the
spawn (classpath "\lib\*"), on either platform. -/
theorem exe_path_error_fallback (p : Platform) (env : Env) (s : String)
    (h1 : env.javaHome = .ok s) (h2 : env.currentExe = .error ()) :
    get_execution_path env.currentExe = OsPath.empty ∧
    spawnsOf (main' p env) =
      [⟨s ++ javawSuffix p, ["-classpath", "\\lib\\*", "jGnash"]⟩] := by
  have hg : get_execution_path env.currentExe = OsPath.empty := by
    rw [h2]; rfl
  refine ⟨hg, ?_⟩
  rw [spawnsOf_main, h1, hg]
  rfl

/-- Witness for C7 at a concrete environment whose exe query fails. -/
theorem exe_path_error_fallback_witness :
    get_execution_path (Env.currentExe ⟨[], .ok "/j", .error (), true⟩) =
      OsPath.empty ∧
    spawnsOf (main' .unix ⟨[], .ok "/j", .error (), true⟩) =
      [⟨"/j" ++ javawSuffix .unix, ["-classpath", "\\lib\\*", "jGnash"]⟩] :=
  exe_path_error_fallback .unix ⟨[], .ok "/j", .error (), true⟩ "/j" rfl rfl

/-- C8: when the OS refuses the spawn, the run is the spawn attempt followed
by the abort with the descriptive message of the `.expect(..)`, and no
dialog is shown on that path. -/
theorem spawn_failure_aborts (p : Platform) (env : Env) (s d : String)
    (h1 : env.javaHome = .ok s)
    (h2 : osPathToStr (sepOf p) (get_execution_path env.currentExe) = some d)
    (h3 : env.spawnSucceeds = false) :
    main' p env =
      [Event.spawnAttempt
        ⟨s ++ javawSuffix p, ["-classpath", d ++ "\\lib\\*", "jGnash"]⟩,
       Event.aborted spawnFailMsg] ∧
    dialogsOf (main' p env) = [] := by
  constructor
  · unfold main'
    rw [h1]
    cases p with
    | windows =>
      unfold launch_jgnash_windows
      rw [h2, h3]
      rfl
    | unix =>
      unfold launch_jgnash_unix
      rw [h2, h3]
      rfl
  · rw [dialogsOf_main, h1]

/-- Witness for C8 at a concrete environment whose spawn fails. -/
theorem spawn_failure_aborts_witness :
    main' .unix ⟨[], .ok "/j", .ok exePathUnix, false⟩ =
      [Event.spawnAttempt
        ⟨"/j" ++ javawSuffix .unix,
          ["-classpath", "/opt/myapp/bin" ++ "\\lib\\*", "jGnash"]⟩,
       Event.aborted spawnFailMsg] ∧
    dialogsOf (main' .unix ⟨[], .ok "/j", .ok exePathUnix, false⟩) = [] :=
  spawn_failure_aborts .unix ⟨[], .ok "/j", .ok exePathUnix, false⟩
    "/j" "/opt/myapp/bin" rfl (by decide) rfl

/-- C9: when `current_exe` succeeds but the popped directory is not valid
UTF-8, the run aborts at the `unwrap` with no spawn attempted: the
empty-path fallback covers only the query-error case. -/
theorem non_utf8_aborts (p : Platform) (env : Env) (s : String) (pth : OsPath)
    (h1 : env.javaHome = .ok s) (h2 : env.currentExe = .ok pth)
    (h3 : osPathToStr (sepOf p) pth.pop = none) :
    main' p env = [Event.aborted unwrapNoneMsg] ∧
    spawnsOf (main' p env) = [] := by
  have hg : get_execution_path env.currentExe = pth.pop := by
    rw [h2]; rfl
  constructor
  · unfold main'
    rw [h1]
    cases p with
    | windows =>
      unfold launch_jgnash_windows
      rw [hg, h3]
    | unix =>
      unfold launch_jgnash_unix
      rw [hg, h3]
  · rw [spawnsOf_main, h1, hg, h3]

/-- A current-executable path whose directory part is not valid UTF-8. -/
def exePathBad : OsPath := ⟨true, [none, some "launcher"]⟩

/-- Witness for C9 at a concrete non-UTF-8 executable path. -/
theorem non_utf8_aborts_witness :
    main' .unix ⟨[], .ok "/j", .ok exePathBad, true⟩ =
      [Event.aborted unwrapNoneMsg] ∧
    spawnsOf (main' .unix ⟨[], .ok "/j", .ok exePathBad, true⟩) = [] :=
  non_utf8_aborts .unix ⟨[], .ok "/j", .ok exePathBad, true⟩ "/j" exePathBad
    rfl rfl (by decide)

/-- C10: the launcher reads no command-line arguments: two environments that
agree on the locator result, the current-executable path and the spawn
outcome, but differ arbitrarily in the argument list, produce identical
traces (same dialogs, same spawn program and arguments). -/
theorem args_not_read (p : Platform) (e1 e2 : Env)
    (h1 : e1.javaHome = e2.javaHome) (h2 : e1.currentExe = e2.currentExe)
    (h3 : e1.spawnSucceeds = e2.spawnSucceeds) :
    main' p e1 = main' p e2 := by
  rcases e1 with ⟨a1, j1, c1, s1⟩
  rcases e2 with ⟨a2, j2, c2, s2⟩
  dsimp only at h1 h2 h3
  subst h1
  subst h2
  subst h3
  rfl

/-- Witness for C10: supplying flags changes nothing. -/
theorem args_not_read_witness :
    main' .unix ⟨["--help", "extra"], .ok "/j", .ok exePathUnix, true⟩ =
      main' .unix ⟨[], .ok "/j", .ok exePathUnix, true⟩ :=
  args_not_read .unix
    ⟨["--help", "extra"], .ok "/j", .ok exePathUnix, true⟩
    ⟨[], .ok "/j", .ok exePathUnix, true⟩ rfl rfl rfl
